import Mathlib

/-!
Shallow embedding of the GA4 MCP server's credential-lifecycle and
request-building core (`src/auth/credentials_manager.py`,
`src/auth/oauth_manager.py`, `src/config/settings.py`,
`src/utils/validation.py`, `src/analytics/report_builder.py`,
`src/analytics/data_formatter.py`), together with theorems settling the
spec claims about it.

Strings are modelled as `List Char` (`Str`) so that the Python string
operations used by the code (`replace`, `split`, `strip`, `startswith`,
`isdigit`, `re.sub` character-class removal) can be given faithful
executable definitions.
-/

deriving instance DecidableEq for Except

namespace GA4

set_option maxRecDepth 4000

abbrev Str := List Char

/-- Error taxonomy of `src/utils/errors.py`. `CredentialsError` is a
subclass of `AuthenticationError` in the Python code; here each carries its
message and we keep the concrete class as a constructor. -/
inductive GA4Err where
  | configuration (msg : String)
  | authentication (msg : String)
  | credentialsE (msg : String)
  | validation (msg : String)
  deriving Repr, DecidableEq

def GA4Err.msg : GA4Err → String
  | .configuration m => m
  | .authentication m => m
  | .credentialsE m => m
  | .validation m => m

/-- Is the error a `ConfigurationError` (exactly, not a subclass)? -/
def GA4Err.isConfiguration : GA4Err → Bool
  | .configuration _ => true
  | _ => false

/-- Case-insensitive "the message mentions the word w": the lowercased
word occurs as a contiguous substring of the lowercased message. -/
def mentions (w : String) (msg : String) : Prop :=
  (w.data.map Char.toLower) <:+: (msg.data.map Char.toLower)

instance (w msg : String) : Decidable (mentions w msg) := by
  unfold mentions; infer_instance

/-! ## JSON values

The credentials file holds a JSON object whose values are strings, null,
or (for `scopes`) an array of strings; `json.dump`/`json.load` round-trip
such values exactly. -/

inductive Json where
  | null
  | str (s : String)
  | arr (xs : List Json)
  | obj (fields : List (String × Json))
  deriving Repr

/-- Python `dict.get(key)`: the value under the first matching key, or
`None` (modelled as `Json.null`) when the key is absent. -/
def jget (fields : List (String × Json)) (key : String) : Json :=
  match fields.find? (fun kv => kv.1 == key) with
  | some kv => kv.2
  | none => Json.null

def Json.asStrOpt : Json → Option String
  | .str s => some s
  | _ => none

/-- Scopes read back from JSON: `null` means `None`; an array is read as a
list of strings. Files written by `save_credentials` only ever contain
string entries, so the `.str`-projection default is never exercised on them. -/
def Json.asScopesOpt : Json → Option (List String)
  | .arr xs => some (xs.map (fun j => match j with | .str s => s | _ => ""))
  | _ => none

def optStrJson : Option String → Json
  | some s => .str s
  | none => .null

def optScopesJson : Option (List String) → Json
  | some l => .arr (l.map Json.str)
  | none => .null

/-! ## Credentials and CredentialsManager (`src/auth/credentials_manager.py`) -/

/-- The slice of `google.oauth2.credentials.Credentials` the manager
touches. Every field is optional in the vendor object. `expired` stands
for the vendor-computed `credentials.expired` property (a credential
reconstructed from the file has no expiry timestamp, so for it the vendor
reports `false`). -/
structure Credentials where
  token : Option String
  refresh_token : Option String
  token_uri : Option String
  client_id : Option String
  client_secret : Option String
  scopes : Option (List String)
  expired : Bool
  deriving Repr, DecidableEq

/-- The credentials file's content: absent, present but not parseable as
JSON (carrying the decoder's message), or parsed JSON. -/
inductive FileData where
  | invalid (err : String)
  | json (j : Json)
  deriving Repr

/-- `CredentialsManager` state: the file at `self.credentials_file` and
the in-memory `self._credentials`. -/
structure CMState where
  fileContent : Option FileData
  mem : Option Credentials
  deriving Repr

/-- `save_credentials`: serializes the six fields to the file
(overwriting unconditionally) and updates the in-memory copy. -/
def save_credentials (_s : CMState) (c : Credentials) : CMState :=
  let creds_data := Json.obj
    [ ("token", optStrJson c.token)
    , ("refresh_token", optStrJson c.refresh_token)
    , ("token_uri", optStrJson c.token_uri)
    , ("client_id", optStrJson c.client_id)
    , ("client_secret", optStrJson c.client_secret)
    , ("scopes", optScopesJson c.scopes) ]
  { fileContent := some (.json creds_data), mem := some c }

def noCredsMsg : String := "No saved credentials found. Please authenticate first."

/-- `load_credentials`: absent file raises `CredentialsError`; a file that
fails to parse as JSON raises `CredentialsError` ("Invalid credentials
file format: {e}"); a parsed JSON object is read with `dict.get`, so
missing keys silently become `None`; any other parsed value (e.g. a JSON
array, on which `.get` does not exist) falls into the generic
`except Exception` branch. Returns the new state and the credential. -/
def credentialsFromJson (fields : List (String × Json)) : Credentials :=
  { token := (jget fields "token").asStrOpt
  , refresh_token := (jget fields "refresh_token").asStrOpt
  , token_uri := (jget fields "token_uri").asStrOpt
  , client_id := (jget fields "client_id").asStrOpt
  , client_secret := (jget fields "client_secret").asStrOpt
  , scopes := (jget fields "scopes").asScopesOpt
  , expired := false }

def load_credentials (s : CMState) : Except GA4Err (CMState × Credentials) :=
  match s.fileContent with
  | none => .error (.credentialsE noCredsMsg)
  | some (.invalid e) =>
      .error (.credentialsE ("Invalid credentials file format: " ++ e))
  | some (.json (Json.obj fields)) =>
      let c : Credentials := credentialsFromJson fields
      .ok ({ s with mem := some c }, c)
  | some (.json j) =>
      .error (.credentialsE ("Failed to load credentials: " ++
        "AttributeError: " ++ (reprStr j) ++ " has no attribute get"))

/-- `is_expired` property: true if no in-memory credential, else the
vendor expiry check. -/
def is_expired (s : CMState) : Bool :=
  match s.mem with
  | none => true
  | some c => c.expired

/-- `is_authenticated` property: in-memory credential exists and is not
expired. -/
def is_authenticated (s : CMState) : Bool :=
  s.mem.isSome && !(is_expired s)

/-- `clear_credentials`: drops the in-memory credential first, then
removes the file if present; a failing removal (modelled by `removeFails`)
raises `CredentialsError`. Returns the post-call state and the raised
error, if any. -/
def clear_credentials (s : CMState) (removeFails : Bool) :
    CMState × Option GA4Err :=
  let s1 : CMState := { s with mem := none }
  match s1.fileContent with
  | none => (s1, none)
  | some _ =>
      if removeFails then
        (s1, some (.credentialsE "Failed to clear credentials: [Errno 13] Permission denied"))
      else
        ({ s1 with fileContent := none }, none)

/-- Values appearing in the `get_credentials_info` dictionary. -/
inductive InfoVal where
  | boolV (b : Bool)
  | strV (s : String)
  | listV (l : List String)
  | noneV
  deriving Repr, DecidableEq

/-- `get_credentials_info`: a diagnostic dictionary, modelled as an
insertion-ordered association list. With no credential the returned
dictionary has four keys; with a credential it has five. -/
def get_credentials_info (s : CMState) : List (String × InfoVal) :=
  match s.mem with
  | none =>
      [ ("authenticated", .boolV false)
      , ("expired", .boolV true)
      , ("scopes", .listV [])
      , ("client_id", .noneV) ]
  | some c =>
      [ ("authenticated", .boolV true)
      , ("expired", .boolV c.expired)
      , ("scopes", .listV (match c.scopes with | some l => l | none => []))
      , ("client_id", match c.client_id with | some s => .strV s | none => .noneV)
      , ("has_refresh_token", .boolV (match c.refresh_token with
          | some t => !(t = "")
          | none => false)) ]

/-! ## Settings (`src/config/settings.py`) -/

/-- The three cached environment variables (`None` when unset). -/
structure Settings where
  client_id_env : Option String
  client_secret_env : Option String
  property_id_env : Option String
  deriving Repr, DecidableEq

/-- Python truthiness of an optional string: `None` and `""` are falsy. -/
def truthy : Option String → Bool
  | none => false
  | some s => !(s = "")

def clientIdErrMsg : String :=
  "GA4_CLIENT_ID environment variable is required. Please set it in your .env file or environment."

def clientSecretErrMsg : String :=
  "GA4_CLIENT_SECRET environment variable is required. Please set it in your .env file or environment."

/-- The `client_id` property: raises `ConfigurationError` when the cached
variable is falsy. -/
def Settings.clientId (st : Settings) : Except GA4Err String :=
  match st.client_id_env with
  | some s => if s = "" then .error (.configuration clientIdErrMsg) else .ok s
  | none => .error (.configuration clientIdErrMsg)

/-- The `client_secret` property: raises `ConfigurationError` when the
cached variable is falsy. -/
def Settings.clientSecret (st : Settings) : Except GA4Err String :=
  match st.client_secret_env with
  | some s => if s = "" then .error (.configuration clientSecretErrMsg) else .ok s
  | none => .error (.configuration clientSecretErrMsg)

def Settings.has_required_credentials (st : Settings) : Bool :=
  truthy st.client_id_env && truthy st.client_secret_env

/-- The `"web"` dictionary assembled by `get_oauth_client_config`. -/
structure OAuthClientConfig where
  client_id : String
  client_secret : String
  auth_uri : String
  token_uri : String
  redirect_uris : List String
  deriving Repr, DecidableEq

/-- `get_oauth_client_config`: reads `client_id` first, then
`client_secret`, so with both variables missing only the `client_id`
error is ever raised. -/
def get_oauth_client_config (st : Settings) : Except GA4Err OAuthClientConfig := do
  let cid ← st.clientId
  let csec ← st.clientSecret
  pure { client_id := cid
       , client_secret := csec
       , auth_uri := "https://accounts.google.com/o/oauth2/auth"
       , token_uri := "https://oauth2.googleapis.com/token"
       , redirect_uris := ["http://localhost:8080"] }

/-! ## OAuthManager (`src/auth/oauth_manager.py`) -/

def notAuthMsg : String :=
  "Not authenticated. Use start_oauth_flow or load_saved_credentials first."

def expiredMsg : String :=
  "Credentials expired. Please re-authenticate using start_oauth_flow."

def readyMsg : String :=
  "Authenticated and ready to access Google Analytics 4 data."

/-- `check_auth_status`: a pure function of the credentials manager's
state. Note the branch order of the source: the expired test is only
reached when `is_authenticated` is true, which already implies the
credential is not expired. -/
def check_auth_status (s : CMState) : Bool × String :=
  if !(is_authenticated s) then (false, notAuthMsg)
  else if is_expired s then (false, expiredMsg)
  else (true, readyMsg)

/-- The flow state persisted to `.oauth_flow_state.json` between
`start_oauth_flow` and `complete_oauth_flow`. -/
structure FlowStateFile where
  client_config : OAuthClientConfig
  state : String
  deriving Repr, DecidableEq

/-- `start_oauth_flow`: builds the client config and hands it to the
vendor flow helper, whose outputs (the authorization URL and the opaque
state token) are parameters of the model. Any exception inside the `try`
body — in particular the `ConfigurationError` from `get_oauth_client_config`
— is caught and re-raised as `AuthenticationError` with the original
message interpolated. On success, returns the URL and the persisted flow
state file content. -/
def start_oauth_flow (st : Settings) (vendorAuthUrl vendorState : String) :
    Except GA4Err (String × FlowStateFile) :=
  match get_oauth_client_config st with
  | .error e =>
      .error (.authentication ("Failed to start OAuth flow: " ++ e.msg))
  | .ok cfg =>
      .ok (vendorAuthUrl, { client_config := cfg, state := vendorState })

/-! ## DataValidator (`src/utils/validation.py`) -/

/-- The characters `str.strip()` removes (the ASCII whitespace Python
treats as space; `Char.ofNat 11`/`12` are vertical tab and form feed). -/
def isPySpace (c : Char) : Bool :=
  c = ' ' || c = '\t' || c = '\n' || c = '\r' || c = Char.ofNat 11 || c = Char.ofNat 12

/-- Python `str.strip()`: drop whitespace from both ends. -/
def pyStrip (s : Str) : Str :=
  ((s.dropWhile isPySpace).reverse.dropWhile isPySpace).reverse

/-- Python `str.isdigit()`: non-empty and all digits. -/
def pyIsDigit (s : Str) : Bool :=
  !s.isEmpty && s.all Char.isDigit

/-- The pattern `'properties/'` of `property_id.replace('properties/', '')`. -/
def propPat : Str := "properties/".data

/-- Python `str.replace('properties/', '')`: scan left to right, removing
every (non-overlapping) occurrence of the pattern. Structural recursion on
a fuel that each step decreases by one while consuming at least one
character. -/
def replacePropsFuel : Nat → Str → Str
  | 0, s => s
  | _ + 1, [] => []
  | fuel + 1, c :: rest =>
    if propPat.isPrefixOf (c :: rest) then
      replacePropsFuel fuel (rest.drop (propPat.length - 1))
    else
      c :: replacePropsFuel fuel rest

def stripProps (s : Str) : Str := replacePropsFuel s.length s

/-- `validate_property_id`: empty input raises; otherwise every occurrence
of `'properties/'` is removed, the remainder must be all digits, and the
returned id is the input itself when it starts with `'properties/'`, else
`'properties/' ++ remainder`. (The source's invalid-id message carries the
offending id; its single quotes are omitted here.) -/
def validate_property_id (property_id : Str) : Except GA4Err Str :=
  if property_id.isEmpty then
    .error (.validation "Property ID cannot be empty")
  else
    let clean_id := stripProps property_id
    if !(pyIsDigit clean_id) then
      .error (.validation ("Invalid property ID: " ++ String.mk property_id ++
        ". Expected numeric ID or properties/123456789 format"))
    else if propPat.isPrefixOf property_id then
      .ok property_id
    else
      .ok (propPat ++ clean_id)

/-- The character class removed by
`re.sub(r-pattern of angle brackets and quotes, empty, s)`:
`<`, `>`, `"` and the apostrophe (`Char.ofNat 39`). -/
def injectionChars : Str := ['<', '>', '"', Char.ofNat 39]

/-- `re.sub` with an empty replacement over a single-character class:
delete each matching character, keep the rest, in order. -/
def reSubRemove (s : Str) : Str :=
  match s with
  | [] => []
  | c :: rest =>
      if injectionChars.contains c then reSubRemove rest
      else c :: reSubRemove rest

/-- `sanitize_string_input`: length gate, then `input_str.strip()` with
the injection characters removed. -/
def sanitize_string_input (input_str : Str) (max_length : Nat := 1000) :
    Except GA4Err Str :=
  if input_str.length > max_length then
    .error (.validation ("Input too long: " ++ toString input_str.length ++
      " > " ++ toString max_length))
  else
    .ok (reSubRemove (pyStrip input_str))

/-! ## ReportBuilder (`src/analytics/report_builder.py`) -/

/-- `OrderBy(metric=OrderBy.MetricOrderBy(metric_name=...), desc=...)`. -/
structure OrderBy where
  metric_name : Str
  desc : Bool
  deriving Repr, DecidableEq

/-- The slice of the vendor `RunReportRequest` the builders populate.
`dimensions`/`metrics` hold the `name` of each `Dimension`/`Metric`. -/
structure RunReportRequest where
  property : Str
  dimensions : List Str
  metrics : List Str
  date_ranges : List (Str × Str)
  limit : Int
  order_bys : List OrderBy
  deriving Repr, DecidableEq

/-- The slice of the vendor `RunRealtimeReportRequest` the builder
populates (no date ranges, no ordering). -/
structure RunRealtimeReportRequest where
  property : Str
  dimensions : List Str
  metrics : List Str
  limit : Int
  deriving Repr, DecidableEq

/-- The two-line format guard repeated verbatim at the top of all four
builders: prepend `'properties/'` unless the id already starts with it. -/
def ensurePropFormat (property_id : Str) : Str :=
  if propPat.isPrefixOf property_id then property_id
  else propPat ++ property_id

/-- `metrics.split(',')` / `dimensions.split(',')` with `.strip()` on each
piece, as done by the standard and realtime builders. -/
def splitNames (csv : Str) : List Str :=
  (csv.splitOn ',').map pyStrip

def build_standard_report_request (property_id start_date end_date metrics dimensions : Str)
    (limit : Int) : RunReportRequest :=
  { property := ensurePropFormat property_id
  , dimensions := splitNames dimensions
  , metrics := splitNames metrics
  , date_ranges := [(start_date, end_date)]
  , limit := limit
  , order_bys := [] }

def build_realtime_report_request (property_id metrics dimensions : Str)
    (limit : Int) : RunRealtimeReportRequest :=
  { property := ensurePropFormat property_id
  , dimensions := splitNames dimensions
  , metrics := splitNames metrics
  , limit := limit }

def build_audience_report_request (property_id start_date end_date : Str)
    (limit : Int) : RunReportRequest :=
  { property := ensurePropFormat property_id
  , dimensions := ["country".data, "city".data, "deviceCategory".data, "operatingSystem".data]
  , metrics := ["users".data, "newUsers".data, "sessions".data,
                "engagedSessions".data, "averageSessionDuration".data]
  , date_ranges := [(start_date, end_date)]
  , limit := limit
  , order_bys := [{ metric_name := "users".data, desc := true }] }

def build_popular_pages_request (property_id start_date end_date : Str)
    (limit : Int) : RunReportRequest :=
  { property := ensurePropFormat property_id
  , dimensions := ["pageTitle".data, "pagePath".data]
  , metrics := ["screenPageViews".data, "users".data, "sessions".data,
                "averageSessionDuration".data, "bounceRate".data]
  , date_ranges := [(start_date, end_date)]
  , limit := limit
  , order_bys := [{ metric_name := "screenPageViews".data, desc := true }] }

/-! ## DataFormatter (`src/analytics/data_formatter.py`) -/

/-- A row of the vendor response: the `.value` strings of
`dimension_values` and `metric_values`. -/
structure ResponseRow where
  dimension_values : List String
  metric_values : List String
  deriving Repr, DecidableEq

/-- The metadata block of a vendor response, when present. -/
structure ResponseMetadata where
  data_loss_from_other_row : Bool
  schema_restriction_response : Option String
  currency_code : String
  time_zone : String
  deriving Repr, DecidableEq

/-- The slice of the vendor `RunReportResponse` that
`format_report_response` reads. `metric_headers` holds `(name, type_.name)`. -/
structure RunReportResponse where
  row_count : Int
  metadata : Option ResponseMetadata
  dimension_headers : List String
  metric_headers : List (String × String)
  rows : List ResponseRow
  deriving Repr, DecidableEq

/-- One entry of the formatted `rows` list. -/
structure FormattedRow where
  dimensions : List String
  metrics : List String
  deriving Repr, DecidableEq

/-- The `metadata` sub-dictionary produced by `_extract_metadata`. -/
structure MetadataDict where
  data_loss_from_other_row : Bool
  schema_restriction_response : Option String
  currency_code : Option String
  time_zone : Option String
  deriving Repr, DecidableEq

/-- `_extract_metadata`: defaults when the response has no metadata. -/
def extract_metadata (r : RunReportResponse) : MetadataDict :=
  match r.metadata with
  | none =>
      { data_loss_from_other_row := false
      , schema_restriction_response := none
      , currency_code := none
      , time_zone := none }
  | some m =>
      { data_loss_from_other_row := m.data_loss_from_other_row
      , schema_restriction_response := m.schema_restriction_response
      , currency_code := some m.currency_code
      , time_zone := some m.time_zone }

/-- The dictionary built by `format_report_response`. -/
structure FormattedReport where
  row_count : Int
  metadata : MetadataDict
  dimension_headers : List String
  metric_headers : List (String × String)
  rows : List FormattedRow
  deriving Repr, DecidableEq

/-- `format_report_response`: headers and metadata are projected, then the
`for row in response.rows` loop appends one formatted row per response row,
in iteration order. -/
def format_report_response (r : RunReportResponse) : FormattedReport :=
  let base : FormattedReport :=
    { row_count := r.row_count
    , metadata := extract_metadata r
    , dimension_headers := r.dimension_headers
    , metric_headers := r.metric_headers
    , rows := [] }
  r.rows.foldl
    (fun acc row =>
      { acc with rows := acc.rows ++
          [{ dimensions := row.dimension_values, metrics := row.metric_values }] })
    base

/-! ## Helper lemmas -/

lemma propPat_eq : propPat = ['p', 'r', 'o', 'p', 'e', 'r', 't', 'i', 'e', 's', '/'] := rfl

lemma asStrOpt_optStrJson (o : Option String) : (optStrJson o).asStrOpt = o := by
  cases o <;> rfl

lemma asScopesOpt_optScopesJson (o : Option (List String)) :
    (optScopesJson o).asScopesOpt = o := by
  cases o with
  | none => rfl
  | some l =>
      simp only [optScopesJson, Json.asScopesOpt, List.map_map, Option.some.injEq]
      exact List.map_id'' (fun _ => rfl) l

lemma propPat_not_prefixOf_digit {c : Char} (rest : Str) (hc : c.isDigit = true) :
    propPat.isPrefixOf (c :: rest) = false := by
  have hpc : ('p' == c) = false := by
    cases h : ('p' == c) with
    | false => rfl
    | true =>
        have hcp : c = 'p' := (eq_of_beq h).symm
        rw [hcp] at hc
        exact absurd hc (by decide)
  simp [propPat_eq, List.isPrefixOf, hpc]

lemma propPat_not_prefixOf_digits {l : Str} (hne : l ≠ []) (hl : l.all Char.isDigit = true) :
    propPat.isPrefixOf l = false := by
  cases l with
  | nil => exact absurd rfl hne
  | cons c rest =>
      have hc : c.isDigit = true := by
        simp only [List.all_cons, Bool.and_eq_true] at hl
        exact hl.1
      exact propPat_not_prefixOf_digit rest hc

lemma replacePropsFuel_digits (fuel : Nat) :
    ∀ l : Str, l.all Char.isDigit = true → replacePropsFuel fuel l = l := by
  induction fuel with
  | zero => intro l _; rfl
  | succ n ih =>
      intro l hl
      cases l with
      | nil => rfl
      | cons c rest =>
          simp only [List.all_cons, Bool.and_eq_true] at hl
          simp [replacePropsFuel, propPat_not_prefixOf_digit rest hl.1, ih rest hl.2]

lemma stripProps_digits (l : Str) (hl : l.all Char.isDigit = true) :
    stripProps l = l :=
  replacePropsFuel_digits l.length l hl

lemma propPat_isPrefixOf_append (l : Str) : propPat.isPrefixOf (propPat ++ l) = true := by
  rw [List.isPrefixOf_iff_prefix]
  exact List.prefix_append _ _

lemma replacePropsFuel_pat_append (fuel : Nat) (l : Str) (hl : l.all Char.isDigit = true) :
    replacePropsFuel (fuel + 1) (propPat ++ l) = l := by
  have hpre : propPat.isPrefixOf (propPat ++ l) = true := propPat_isPrefixOf_append l
  have h1 : propPat ++ l =
      'p' :: ('r' :: 'o' :: 'p' :: 'e' :: 'r' :: 't' :: 'i' :: 'e' :: 's' :: '/' :: l) := by
    simp [propPat_eq]
  rw [h1] at hpre
  rw [h1]
  simp only [replacePropsFuel, hpre, if_true]
  have h2 : (('r' :: 'o' :: 'p' :: 'e' :: 'r' :: 't' :: 'i' :: 'e' :: 's' :: '/' :: l).drop
      (propPat.length - 1)) = l := rfl
  rw [h2]
  exact replacePropsFuel_digits fuel l hl

lemma stripProps_pat_append (l : Str) (hl : l.all Char.isDigit = true) :
    stripProps (propPat ++ l) = l := by
  have hlen : (propPat ++ l).length = (l.length + 10) + 1 := by
    simp [propPat_eq]
  unfold stripProps
  rw [hlen]
  exact replacePropsFuel_pat_append (l.length + 10) l hl

lemma mentions_append_left {w a : String} (b : String) (h : mentions w a) :
    mentions w (a ++ b) := by
  unfold mentions at h ⊢
  rw [String.data_append, List.map_append]
  exact h.trans (List.prefix_append _ _).isInfix

lemma reSubRemove_eq_filter (l : Str) :
    reSubRemove l = l.filter (fun c => !(injectionChars.contains c)) := by
  induction l with
  | nil => rfl
  | cons c rest ih =>
      cases hc : injectionChars.contains c <;>
        simp [reSubRemove, hc, ih, List.filter_cons]

lemma format_rows_foldl (rows : List ResponseRow) :
    ∀ base : FormattedReport,
      (rows.foldl (fun acc row =>
        { acc with rows := acc.rows ++
            [{ dimensions := row.dimension_values, metrics := row.metric_values }] })
        base).rows
      = base.rows ++ rows.map (fun row =>
          ({ dimensions := row.dimension_values,
             metrics := row.metric_values } : FormattedRow)) := by
  induction rows with
  | nil => intro base; simp
  | cons r rest ih =>
      intro base
      simp only [List.foldl_cons, List.map_cons, ih]
      simp

/-! ## Claim theorems -/

/-- Claim C1 (confirmed): for every credentials-manager state and every
credential, `save_credentials` followed by `load_credentials` on the same
file succeeds and returns a credential whose `token`, `refresh_token`,
`token_uri`, `client_id`, `client_secret` and `scopes` are identical to
those saved. -/
theorem C1_save_load_roundtrip (s : CMState) (c : Credentials) :
    ∃ r : CMState × Credentials,
      load_credentials (save_credentials s c) = .ok r ∧
      r.2.token = c.token ∧
      r.2.refresh_token = c.refresh_token ∧
      r.2.token_uri = c.token_uri ∧
      r.2.client_id = c.client_id ∧
      r.2.client_secret = c.client_secret ∧
      r.2.scopes = c.scopes := by
  refine ⟨_, rfl, ?_, ?_, ?_, ?_, ?_, ?_⟩
  · exact asStrOpt_optStrJson c.token
  · exact asStrOpt_optStrJson c.refresh_token
  · exact asStrOpt_optStrJson c.token_uri
  · exact asStrOpt_optStrJson c.client_id
  · exact asStrOpt_optStrJson c.client_secret
  · exact asScopesOpt_optScopesJson c.scopes

/-- Claim C2 (counterexample): a credentials file whose JSON object is
missing every one of the six required keys does NOT raise
`CredentialsError` — `dict.get` silently yields `None` for each field and
`load_credentials` succeeds. The claim requires an "invalid format" error
here. -/
theorem C2_counterexample_missing_keys :
    load_credentials { fileContent := some (.json (.obj [])), mem := none } =
      .ok ( { fileContent := some (.json (.obj [])),
              mem := some { token := none, refresh_token := none, token_uri := none,
                            client_id := none, client_secret := none, scopes := none,
                            expired := false } },
            { token := none, refresh_token := none, token_uri := none,
              client_id := none, client_secret := none, scopes := none,
              expired := false } ) := rfl

/-- Claim C2 (amended): `load_credentials` raises `CredentialsError`
mentioning "no saved credentials" when the file is absent and
`CredentialsError` mentioning the words "invalid" and "format" when the
file is not parseable JSON; when the file parses to a JSON object it
reconstructs the credential via `dict.get` — keys missing from the object
silently become `None` fields rather than errors — caches it, and returns
it. -/
theorem C2_load_error_paths (s : CMState) :
    (s.fileContent = none →
      load_credentials s = .error (.credentialsE noCredsMsg) ∧
      mentions "no saved credentials" noCredsMsg) ∧
    (∀ e, s.fileContent = some (.invalid e) →
      load_credentials s =
        .error (.credentialsE ("Invalid credentials file format: " ++ e)) ∧
      mentions "invalid" ("Invalid credentials file format: " ++ e) ∧
      mentions "format" ("Invalid credentials file format: " ++ e)) ∧
    (∀ fields, s.fileContent = some (.json (.obj fields)) →
      load_credentials s =
        .ok ({ s with mem := some (credentialsFromJson fields) },
             credentialsFromJson fields)) := by
  refine ⟨?_, ?_, ?_⟩
  · intro h
    rw [load_credentials, h]
    exact ⟨rfl, by decide⟩
  · intro e h
    rw [load_credentials, h]
    refine ⟨rfl, ?_, ?_⟩
    · exact mentions_append_left e (by decide)
    · exact mentions_append_left e (by decide)
  · intro fields h
    rw [load_credentials, h]

/-- Witness for C2: the three branches at concrete states — an absent
file, a corrupt file, and a parsed object holding only a `token` key. -/
theorem C2_load_error_paths_witness :
    (load_credentials { fileContent := none, mem := none } =
      .error (.credentialsE noCredsMsg) ∧
      mentions "no saved credentials" noCredsMsg) ∧
    (load_credentials { fileContent := some (.invalid "Expecting value: line 1 column 1 (char 0)"),
                        mem := none } =
      .error (.credentialsE
        ("Invalid credentials file format: " ++ "Expecting value: line 1 column 1 (char 0)")) ∧
      mentions "invalid"
        ("Invalid credentials file format: " ++ "Expecting value: line 1 column 1 (char 0)") ∧
      mentions "format"
        ("Invalid credentials file format: " ++ "Expecting value: line 1 column 1 (char 0)")) ∧
    (load_credentials { fileContent := some (.json (.obj [("token", Json.str "tok")])),
                        mem := none } =
      .ok ({ fileContent := some (.json (.obj [("token", Json.str "tok")])),
             mem := some (credentialsFromJson [("token", Json.str "tok")]) },
           credentialsFromJson [("token", Json.str "tok")])) :=
  ⟨(C2_load_error_paths _).1 rfl,
   (C2_load_error_paths _).2.1 _ rfl,
   (C2_load_error_paths _).2.2 _ rfl⟩

/-- Claim C3 (counterexample): in a state holding an expired credential,
`check_auth_status` returns the generic not-authenticated message — which
does not mention "expired" — because `is_authenticated` is already false
for an expired credential, so the expired branch of the source is
unreachable. The claim requires a message saying the credentials are
expired here. -/
theorem C3_counterexample_expired_state :
    check_auth_status
      { fileContent := none,
        mem := some { token := some "t", refresh_token := some "r",
                      token_uri := some "u", client_id := some "c",
                      client_secret := some "s", scopes := some [],
                      expired := true } } = (false, notAuthMsg) ∧
    ¬ mentions "expired" notAuthMsg := by
  exact ⟨rfl, by decide⟩

/-- Claim C3 (amended): `check_auth_status` is a pure function of the
manager state that returns `(true, ready-message)` when a non-expired
credential is held and `(false, not-authenticated-message)` otherwise —
also when the held credential is merely expired; the expired-credentials
message is never produced. -/
theorem C3_check_auth_status (s : CMState) :
    check_auth_status s =
      (if is_authenticated s then (true, readyMsg) else (false, notAuthMsg)) ∧
    (check_auth_status s).2 ≠ expiredMsg := by
  cases s with
  | mk fc mem =>
      cases mem with
      | none => exact ⟨rfl, show notAuthMsg ≠ expiredMsg by decide⟩
      | some c =>
          cases hc : c.expired with
          | false =>
              refine ⟨?_, ?_⟩
              all_goals simp [check_auth_status, is_authenticated, is_expired, hc]
              all_goals decide
          | true =>
              refine ⟨?_, ?_⟩
              all_goals simp [check_auth_status, is_authenticated, is_expired, hc]
              all_goals decide

/-- Claim C4 (counterexample): with neither `GA4_CLIENT_ID` nor
`GA4_CLIENT_SECRET` set, `start_oauth_flow` raises `AuthenticationError`
(the `try` block re-wraps the underlying `ConfigurationError`), and the
message names only `GA4_CLIENT_ID`: `client_id` is read first and its
failure aborts before `client_secret` is ever read. The claim requires a
`ConfigurationError` naming both variables. -/
theorem C4_counterexample_wrapped_error :
    start_oauth_flow
      { client_id_env := none, client_secret_env := none, property_id_env := none }
      "https://accounts.google.com/o/oauth2/auth?state=xyz" "xyz" =
      .error (.authentication ("Failed to start OAuth flow: " ++ clientIdErrMsg)) ∧
    (GA4Err.authentication ("Failed to start OAuth flow: " ++ clientIdErrMsg)).isConfiguration
      = false ∧
    mentions "GA4_CLIENT_ID" ("Failed to start OAuth flow: " ++ clientIdErrMsg) ∧
    ¬ mentions "GA4_CLIENT_SECRET" ("Failed to start OAuth flow: " ++ clientIdErrMsg) := by
  exact ⟨rfl, rfl, by decide, by decide⟩

/-- Claim C4 (amended): when neither environment variable is set,
`start_oauth_flow` fails with an `AuthenticationError` whose message wraps
the `ConfigurationError` text naming `GA4_CLIENT_ID` — the first missing
variable — and does not name `GA4_CLIENT_SECRET`. -/
theorem C4_start_flow_missing_config (st : Settings) (u v : String)
    (hid : st.client_id_env = none) (_hsec : st.client_secret_env = none) :
    start_oauth_flow st u v =
      .error (.authentication ("Failed to start OAuth flow: " ++ clientIdErrMsg)) ∧
    mentions "GA4_CLIENT_ID" ("Failed to start OAuth flow: " ++ clientIdErrMsg) ∧
    ¬ mentions "GA4_CLIENT_SECRET" ("Failed to start OAuth flow: " ++ clientIdErrMsg) := by
  refine ⟨?_, by decide, by decide⟩
  rw [start_oauth_flow, get_oauth_client_config]
  rw [Settings.clientId, hid]
  rfl

/-- Witness for C4: the amended statement at the all-unset settings. -/
theorem C4_start_flow_missing_config_witness :
    start_oauth_flow
      { client_id_env := none, client_secret_env := none, property_id_env := none }
      "u" "v" =
      .error (.authentication ("Failed to start OAuth flow: " ++ clientIdErrMsg)) ∧
    mentions "GA4_CLIENT_ID" ("Failed to start OAuth flow: " ++ clientIdErrMsg) ∧
    ¬ mentions "GA4_CLIENT_SECRET" ("Failed to start OAuth flow: " ++ clientIdErrMsg) :=
  C4_start_flow_missing_config _ "u" "v" rfl rfl

/-- Claim C5 (counterexample): stripping one leading prefix of the input
`"properties/properties/1"` leaves `"properties/1"`, which is not
all-digits, so the claim demands `ValidationError`; but `str.replace`
removes BOTH occurrences, the remainder `"1"` is all-digits, and since the
input starts with `'properties/'` the function returns it unchanged —
which is also not of the canonical `properties/<digits>` form. -/
theorem C5_counterexample_double_pat :
    pyIsDigit (List.drop propPat.length ("properties/properties/1".data)) = false ∧
    validate_property_id ("properties/properties/1".data) =
      .ok ("properties/properties/1".data) := by
  exact ⟨by decide, by decide⟩

/-- Claim C5 (amended): `validate_property_id` removes every occurrence of
the substring `'properties/'` (not just one leading one), raises
`ValidationError` unless the remainder is non-empty and all-digits, and
returns the input unchanged when it starts with `'properties/'`, else
`'properties/' ++ remainder`; in particular, for every non-empty all-digit
string `p`, both `validate_property_id p` and
`validate_property_id ("properties/" ++ p)` equal `"properties/" ++ p`. -/
theorem C5_validate_property_id (p : Str) (hne : p ≠ [])
    (hdig : p.all Char.isDigit = true) :
    validate_property_id p = .ok (propPat ++ p) ∧
    validate_property_id (propPat ++ p) = .ok (propPat ++ p) := by
  have hie : p.isEmpty = false := by
    cases p with
    | nil => exact absurd rfl hne
    | cons a b => rfl
  have hd : pyIsDigit p = true := by simp [pyIsDigit, hie, hdig]
  have hie2 : (propPat ++ p).isEmpty = false := by simp [propPat_eq]
  constructor
  · simp [validate_property_id, hie, stripProps_digits p hdig, hd,
          propPat_not_prefixOf_digits hne hdig]
  · simp [validate_property_id, hie2, stripProps_pat_append p hdig, hd,
          propPat_isPrefixOf_append]

/-- Witness for C5: the amended round-trip at the all-digit id
`"123456789"`. -/
theorem C5_validate_property_id_witness :
    validate_property_id ("123456789".data) = .ok (propPat ++ "123456789".data) ∧
    validate_property_id (propPat ++ "123456789".data) =
      .ok (propPat ++ "123456789".data) :=
  C5_validate_property_id ("123456789".data) (by decide) (by decide)

/-- Claim C6 (confirmed): the standard builder called with property id
`"123456789"`, metrics `"sessions,users"`, dimensions `"date"` and limit
`10` produces exactly the expected request, and all four builders embed an
all-digit property id — given either bare or already prefixed — in the
canonical `properties/<digits>` form. -/
theorem C6_builders_canonical_property :
    (build_standard_report_request "123456789".data "7daysAgo".data "today".data
        "sessions,users".data "date".data 10 =
      { property := "properties/123456789".data
      , dimensions := ["date".data]
      , metrics := ["sessions".data, "users".data]
      , date_ranges := [("7daysAgo".data, "today".data)]
      , limit := 10
      , order_bys := [] }) ∧
    (∀ p : Str, p ≠ [] → p.all Char.isDigit = true →
      ∀ (sd ed m dm : Str) (lim : Int),
        (build_standard_report_request p sd ed m dm lim).property = propPat ++ p ∧
        (build_standard_report_request (propPat ++ p) sd ed m dm lim).property = propPat ++ p ∧
        (build_realtime_report_request p m dm lim).property = propPat ++ p ∧
        (build_realtime_report_request (propPat ++ p) m dm lim).property = propPat ++ p ∧
        (build_audience_report_request p sd ed lim).property = propPat ++ p ∧
        (build_audience_report_request (propPat ++ p) sd ed lim).property = propPat ++ p ∧
        (build_popular_pages_request p sd ed lim).property = propPat ++ p ∧
        (build_popular_pages_request (propPat ++ p) sd ed lim).property = propPat ++ p) := by
  constructor
  · decide
  · intro p hne hdig sd ed m dm lim
    have h1 : ensurePropFormat p = propPat ++ p := by
      simp [ensurePropFormat, propPat_not_prefixOf_digits hne hdig]
    have h2 : ensurePropFormat (propPat ++ p) = propPat ++ p := by
      simp [ensurePropFormat, propPat_isPrefixOf_append]
    exact ⟨h1, h2, h1, h2, h1, h2, h1, h2⟩

/-- Witness for C6: the canonical-form conjunct at the all-digit id
`"42"`. -/
theorem C6_builders_canonical_property_witness :
    (build_standard_report_request "42".data "7daysAgo".data "today".data
        "sessions".data "date".data 5).property = propPat ++ "42".data ∧
    (build_audience_report_request (propPat ++ "42".data) "30daysAgo".data
        "today".data 20).property = propPat ++ "42".data :=
  ⟨(C6_builders_canonical_property.2 ("42".data) (by decide) (by decide)
      "7daysAgo".data "today".data "sessions".data "date".data 5).1,
   (C6_builders_canonical_property.2 ("42".data) (by decide) (by decide)
      "30daysAgo".data "today".data "sessions".data "date".data 20).2.2.2.2.2.1⟩

/-- Claim C7 (confirmed): `format_report_response` emits exactly one
formatted row per response row, in response order, with the dimension and
metric value strings carried through unchanged; in particular the concrete
two-row response of spec scenario D formats to two entries with length-one
`dimensions` and `metrics`, in input order. -/
theorem C7_format_preserves_rows (resp : RunReportResponse) :
    (format_report_response resp).rows =
      resp.rows.map (fun row =>
        { dimensions := row.dimension_values, metrics := row.metric_values }) ∧
    (format_report_response resp).rows.length = resp.rows.length ∧
    (format_report_response
        { row_count := 2
        , metadata := none
        , dimension_headers := ["country"]
        , metric_headers := [("activeUsers", "TYPE_INTEGER")]
        , rows := [ { dimension_values := ["US"], metric_values := ["100"] }
                  , { dimension_values := ["DE"], metric_values := ["50"] } ] }).rows =
      [ { dimensions := ["US"], metrics := ["100"] }
      , { dimensions := ["DE"], metrics := ["50"] } ] := by
  refine ⟨?_, ?_, by decide⟩
  · unfold format_report_response
    simp [format_rows_foldl]
  · unfold format_report_response
    simp [format_rows_foldl]

/-- Claim C8 (counterexample): on the input `" a "` (length 3, none of the
four injection characters present) the claim demands the string back
unchanged, but `sanitize_string_input` first applies `.strip()` and
returns `"a"`. -/
theorem C8_counterexample_strip_whitespace :
    sanitize_string_input (" a ".data) 1000 = .ok ("a".data) ∧
    ("a".data : Str) ≠ " a ".data := by
  exact ⟨by decide, by decide⟩

/-- Claim C8 (amended): for strings of length at most 1000,
`sanitize_string_input` returns the input with surrounding whitespace
stripped and then exactly the literal characters `<`, `>`, `"` and the
apostrophe removed (nothing else changed); for longer strings it raises
`ValidationError`. -/
theorem C8_sanitize_string (s : Str) :
    (s.length ≤ 1000 →
      sanitize_string_input s 1000 =
        .ok ((pyStrip s).filter (fun c => !(injectionChars.contains c)))) ∧
    (s.length > 1000 →
      sanitize_string_input s 1000 =
        .error (.validation ("Input too long: " ++ toString s.length ++
          " > " ++ toString (1000 : Nat)))) := by
  constructor
  · intro h
    rw [sanitize_string_input, if_neg (by omega), reSubRemove_eq_filter]
  · intro h
    rw [sanitize_string_input, if_pos h]

/-- Witness for C8: both branches — a short string with injection
characters and surrounding whitespace, and a 1001-character string. -/
theorem C8_sanitize_string_witness :
    sanitize_string_input ("<b> hi ".data) 1000 =
      .ok ((pyStrip ("<b> hi ".data)).filter (fun c => !(injectionChars.contains c))) ∧
    sanitize_string_input (List.replicate 1001 'a') 1000 =
      .error (.validation ("Input too long: " ++ toString (List.replicate 1001 'a').length ++
        " > " ++ toString (1000 : Nat))) :=
  ⟨(C8_sanitize_string _).1 (by decide),
   (C8_sanitize_string _).2 (by simp)⟩

/-- Claim C9 (counterexample): with no credential held,
`get_credentials_info` returns a dictionary with only the four keys
`authenticated`, `expired`, `scopes`, `client_id` — `has_refresh_token` is
absent, contradicting the claim that all five keys are present in every
state. -/
theorem C9_counterexample_missing_key :
    (get_credentials_info { fileContent := none, mem := none }).map Prod.fst =
      ["authenticated", "expired", "scopes", "client_id"] ∧
    "has_refresh_token" ∉
      (get_credentials_info { fileContent := none, mem := none }).map Prod.fst := by
  exact ⟨rfl, by decide⟩

/-- Claim C9 (amended): `get_credentials_info` is a pure total function of
the manager state (it never raises and mutates nothing); when a credential
is held the returned dictionary has exactly the five keys `authenticated`,
`expired`, `scopes`, `client_id`, `has_refresh_token`, and when none is
held it has only the first four. -/
theorem C9_info_keys (s : CMState) :
    (get_credentials_info s).map Prod.fst =
      (if s.mem.isSome then
        ["authenticated", "expired", "scopes", "client_id", "has_refresh_token"]
      else
        ["authenticated", "expired", "scopes", "client_id"]) := by
  cases s with
  | mk fc mem => cases mem <;> rfl

/-- Claim C10 (confirmed): `clear_credentials` clears the in-memory
credential before attempting the file removal, so in every state — also
when the removal fails and `CredentialsError` is raised — the post-call
manager holds no in-memory credential and `is_authenticated` is false. -/
theorem C10_clear_state (s : CMState) (removeFails : Bool) :
    ((clear_credentials s removeFails).1).mem = none ∧
    is_authenticated (clear_credentials s removeFails).1 = false ∧
    (removeFails = true → s.fileContent ≠ none →
      ((clear_credentials s removeFails).2).isSome = true) := by
  cases s with
  | mk fc mem =>
      cases fc with
      | none =>
          cases removeFails <;>
            simp [clear_credentials, is_authenticated, is_expired]
      | some fd =>
          cases removeFails <;>
            simp [clear_credentials, is_authenticated, is_expired]

/-- Witness for C10: a failing removal on a populated state still leaves
the manager unauthenticated, while the error is raised. -/
theorem C10_clear_state_witness :
    ((clear_credentials
        { fileContent := some (.json (.obj []))
        , mem := some { token := some "t", refresh_token := none, token_uri := none,
                        client_id := none, client_secret := none, scopes := none,
                        expired := false } } true).1).mem = none ∧
    is_authenticated (clear_credentials
        { fileContent := some (.json (.obj []))
        , mem := some { token := some "t", refresh_token := none, token_uri := none,
                        client_id := none, client_secret := none, scopes := none,
                        expired := false } } true).1 = false ∧
    ((clear_credentials
        { fileContent := some (.json (.obj []))
        , mem := some { token := some "t", refresh_token := none, token_uri := none,
                        client_id := none, client_secret := none, scopes := none,
                        expired := false } } true).2).isSome = true :=
  ⟨(C10_clear_state _ _).1, (C10_clear_state _ _).2.1,
   (C10_clear_state _ _).2.2 rfl (by simp)⟩

end GA4
